import Mathlib

/-!
Verification of the prodsignal-landing core logic: a shallow embedding of
the retry-with-backoff helper and POST handler (src/unnamed/part_000, an
API route) and of the analysis-text parser `parseAnalysisResults`
(src/app/page.tsx), together with theorems settling the frozen claims.

JavaScript strings are modelled as Lean `String` / `List Char`; the
JS string operations used by the code (`trim`, `includes`, `startsWith`,
`replace` with a string pattern, `split`) are re-implemented below over
`List Char` with the semantics they have on the ASCII texts involved.
-/

namespace ProdSignal

/-- ASCII whitespace recognised by JS `trim` / `\s` (space, tab, LF, VT, FF, CR). -/
def isJsWhitespace (c : Char) : Bool :=
  c == ' ' || c == '\t' || c == '\n' || c == '\x0b' || c == '\x0c' || c == '\r'

/-- JS `String.prototype.trim`: drop whitespace from both ends. -/
def trimChars (l : List Char) : List Char :=
  ((l.dropWhile isJsWhitespace).reverse.dropWhile isJsWhitespace).reverse

/-- JS `String.prototype.startsWith` on char lists. -/
def startsWithChars : List Char → List Char → Bool
  | _, [] => true
  | [], _ :: _ => false
  | c :: cs, p :: ps => c == p && startsWithChars cs ps

/-- JS `String.prototype.includes` on char lists: some suffix has `pat` as a prefix. -/
def containsSub : List Char → List Char → Bool
  | [], pat => startsWithChars [] pat
  | c :: t, pat => startsWithChars (c :: t) pat || containsSub t pat

/-- The GetSubstitution step of JS `String.prototype.replace` for a string
search value (no capture groups): a dollar followed by a second dollar emits
one dollar, by an ampersand emits the matched text, by code point 96
(backtick) emits the subject text before the match, by code point 39
(apostrophe) emits the subject text after the match; any other dollar, and
every other character, is kept literally. -/
def getSubstitution (matched before after : List Char) : List Char → List Char
  | [] => []
  | c :: t =>
    if c == '$' then
      match t with
      | [] => ['$']
      | d :: t2 =>
        if d == '$' then '$' :: getSubstitution matched before after t2
        else if d == '&' then matched ++ getSubstitution matched before after t2
        else if d == Char.ofNat 96 then before ++ getSubstitution matched before after t2
        else if d == Char.ofNat 39 then after ++ getSubstitution matched before after t2
        else '$' :: getSubstitution matched before after (d :: t2)
    else c :: getSubstitution matched before after t

/-- Whether a replacement string contains one of the four active dollar
patterns of `getSubstitution` (dollar-dollar, dollar-ampersand,
dollar-backtick, dollar-apostrophe); on pattern-free strings
`getSubstitution` is the identity. -/
def hasDollarPattern : List Char → Bool
  | [] => false
  | [_] => false
  | c :: d :: t =>
    (c == '$' &&
      (d == '$' || d == '&' || d == Char.ofNat 96 || d == Char.ofNat 39)) ||
      hasDollarPattern (d :: t)

/-- Scan for the first occurrence of `pat`, keeping the already-consumed
subject text in `acc` (reversed) so the dollar substitution can see the
text before and after the match. -/
def replaceFirstAux (pat repl : List Char) : List Char → List Char → List Char
  | acc, [] =>
    if startsWithChars [] pat then
      acc.reverse ++ getSubstitution pat acc.reverse [] repl
    else acc.reverse
  | acc, c :: t =>
    if startsWithChars (c :: t) pat then
      acc.reverse ++ getSubstitution pat acc.reverse ((c :: t).drop pat.length) repl ++
        (c :: t).drop pat.length
    else replaceFirstAux pat repl (c :: acc) t

/-- JS `String.prototype.replace` with a string pattern: replace the first
occurrence of `pat` (if any) by `repl`, applying the dollar substitution
patterns to `repl` as GetSubstitution does. -/
def replaceFirst (l pat repl : List Char) : List Char :=
  replaceFirstAux pat repl [] l

/-- JS `text.split(newline)` on char lists. -/
def splitLines : List Char → List (List Char)
  | [] => [[]]
  | c :: t =>
    if c == '\n' then [] :: splitLines t
    else
      match splitLines t with
      | [] => [[c]]
      | l :: ls => (c :: l) :: ls

/-- JS `line.replace` of the anchored pattern dash-then-whitespace by the
empty string (used for evidence bullet lines). -/
def stripLeadingDash (l : List Char) : List Char :=
  match l with
  | '-' :: t => t.dropWhile isJsWhitespace
  | _ => l

/-- String-level wrapper for `replaceFirst`. -/
def replaceFirstStr (s pat repl : String) : String :=
  String.mk (replaceFirst s.data pat.data repl.data)

/-- String-level wrapper for `trimChars`. -/
def strTrim (s : String) : String := String.mk (trimChars s.data)

/-! ## Retry with exponential backoff (src/unnamed/part_000, lines 60-87) -/

/-- The shape of a JS error value as inspected by `retryWithBackoff` and the
POST catch block: `error?.status`, `error?.error?.type`, `error?.message`.
A missing / non-string / non-number property is `none`. -/
structure JsError where
  status : Option Nat
  errorType : Option String
  message : Option String
deriving Repr, DecidableEq

/-- JS check `error?.status === 529 || error?.error?.type === 'overloaded_error' ||
error?.message?.includes('overloaded')`. -/
def isOverloaded (e : JsError) : Bool :=
  e.status == some 529 || e.errorType == some "overloaded_error" ||
    (match e.message with
     | some m => containsSub m.data "overloaded".data
     | none => false)

/-- JS check `error?.status === 429 || error?.error?.type === 'rate_limit_error'`. -/
def isRateLimit (e : JsError) : Bool :=
  e.status == some 429 || e.errorType == some "rate_limit_error"

/-- The retry condition of `retryWithBackoff`: `isOverloaded || isRateLimit`. -/
def isRetryable (e : JsError) : Bool := isOverloaded e || isRateLimit e

/-- Outcome of `retryWithBackoff`: a returned value, a re-thrown original
error, or the defensive `new Error('Max retries exceeded')` after the loop. -/
inductive RetryOutcome (α : Type) where
  | ok (v : α)
  | err (e : JsError)
  | maxRetriesExceeded
deriving Repr, DecidableEq

/-- The attempt loop of `retryWithBackoff`, starting at attempt index `a`.
The wrapped operation `fn` is modelled as a function from the attempt index
to that attempt's outcome. Returns the outcome together with the list of
sleep durations (in ms) performed, in order. -/
def retryLoop (fn : Nat → Except JsError α) (maxRetries baseDelay a : Nat) :
    RetryOutcome α × List Nat :=
  if _h : a < maxRetries then
    match fn a with
    | Except.ok v => (RetryOutcome.ok v, [])
    | Except.error e =>
      if isRetryable e = true ∧ a < maxRetries - 1 then
        let p := retryLoop fn maxRetries baseDelay (a + 1)
        (p.1, baseDelay * 2 ^ a :: p.2)
      else (RetryOutcome.err e, [])
  else (RetryOutcome.maxRetriesExceeded, [])
termination_by maxRetries - a
decreasing_by omega

/-- Function `retryWithBackoff(fn, maxRetries, baseDelay)` (defaults 3 and 1000 at the
declaration; the call site passes 3 and 1500). -/
def retryWithBackoff (fn : Nat → Except JsError α) (maxRetries baseDelay : Nat) :
    RetryOutcome α × List Nat :=
  retryLoop fn maxRetries baseDelay 0

/-! ## Parser data model (src/app/page.tsx, lines 27-46) -/

/-- The `interface Problem` of page.tsx. Fields other than `title` may be left
unset on a record built by the parser (JS `undefined`), hence `Option`. -/
structure Problem where
  title : String
  mentionedIn : Option String
  impact : Option String
  evidence : List String
deriving Repr, DecidableEq

/-- The `interface Feature` of page.tsx. -/
structure Feature where
  feature : String
  why : Option String
  effort : Option String
  priority : Option String
deriving Repr, DecidableEq

/-- The `interface TopPriority` of page.tsx: all four fields are seeded with
the empty string when the record is created. -/
structure TopPriority where
  what : String
  why : String
  impact : String
  evidence : String
deriving Repr, DecidableEq

/-- The in-progress `Partial<Problem>` record of the scan (evidence is held
in the separate accumulator until finalization). -/
structure DraftProblem where
  title : String
  mentionedIn : Option String := none
  impact : Option String := none
deriving Repr, DecidableEq

/-- The in-progress `Partial<Feature>` record of the scan. -/
structure DraftFeature where
  feature : String
  why : Option String := none
  effort : Option String := none
  priority : Option String := none
deriving Repr, DecidableEq

/-- The `currentSection` string tag of the scan. -/
inductive SectionTag where
  | problems
  | features
  | topPriority
deriving Repr, DecidableEq

/-- The mutable locals of `parseAnalysisResults` as one state record. -/
structure ParseState where
  problems : List Problem
  features : List Feature
  topPriority : Option TopPriority
  currentSection : Option SectionTag
  currentProblem : Option DraftProblem
  currentFeature : Option DraftFeature
  currentEvidence : List String
deriving Repr, DecidableEq

/-- The value handed to `setParsedResults` at the end of the scan. -/
structure ParseResult where
  problems : List Problem
  features : List Feature
  topPriority : Option TopPriority
deriving Repr, DecidableEq

/-- Source `if (currentProblem && currentProblem.title) { currentProblem.evidence =
currentEvidence; problems.push(currentProblem); }` — the problem-finalization
step, duplicated at three places of the source. -/
def finalizeProblems (st : ParseState) : List Problem :=
  match st.currentProblem with
  | some p =>
    if p.title == "" then st.problems
    else st.problems ++
      [{ title := p.title, mentionedIn := p.mentionedIn, impact := p.impact,
         evidence := st.currentEvidence }]
  | none => st.problems

/-- Source `if (currentFeature && currentFeature.feature) features.push(currentFeature)`. -/
def finalizeFeatures (st : ParseState) : List Feature :=
  match st.currentFeature with
  | some f =>
    if f.feature == "" then st.features
    else st.features ++
      [{ feature := f.feature, why := f.why, effort := f.effort, priority := f.priority }]
  | none => st.features

/-- The `problems`-section field handling of the scan (page.tsx lines 232-250),
reached only when no section header matched on this (already trimmed) line. -/
def problemsStep (st : ParseState) (line : List Char) : ParseState :=
  if startsWithChars line "Problem:".data then
    { st with problems := finalizeProblems st,
              currentProblem :=
                some ({ title := String.mk (trimChars (replaceFirst line "Problem:".data [])) } : DraftProblem),
              currentEvidence := [] }
  else if startsWithChars line "Mentioned in:".data then
    match st.currentProblem with
    | some p =>
      { st with currentProblem := some ({ p with
          mentionedIn := some (String.mk (trimChars (replaceFirst line "Mentioned in:".data []))) }) }
    | none => st
  else if startsWithChars line "Impact:".data then
    match st.currentProblem with
    | some p =>
      { st with currentProblem := some ({ p with
          impact := some (String.mk (trimChars (replaceFirst line "Impact:".data []))) }) }
    | none => st
  else if startsWithChars line "Evidence:".data then
    if (trimChars (replaceFirst line "Evidence:".data [])).isEmpty then st
    else { st with currentEvidence :=
            st.currentEvidence ++ [String.mk (trimChars (replaceFirst line "Evidence:".data []))] }
  else if startsWithChars line "-".data then
    { st with currentEvidence := st.currentEvidence ++ [String.mk (stripLeadingDash line)] }
  else if startsWithChars line "\"".data then
    { st with currentEvidence := st.currentEvidence ++ [String.mk line] }
  else st

/-- The `features`-section field handling (page.tsx lines 252-263). -/
def featuresStep (st : ParseState) (line : List Char) : ParseState :=
  if startsWithChars line "Feature:".data then
    { st with features := finalizeFeatures st,
              currentFeature :=
                some ({ feature := String.mk (trimChars (replaceFirst line "Feature:".data [])) } : DraftFeature) }
  else if startsWithChars line "Why:".data then
    match st.currentFeature with
    | some f =>
      { st with currentFeature := some ({ f with
          why := some (String.mk (trimChars (replaceFirst line "Why:".data []))) }) }
    | none => st
  else if startsWithChars line "Effort:".data then
    match st.currentFeature with
    | some f =>
      { st with currentFeature := some ({ f with
          effort := some (String.mk (trimChars (replaceFirst line "Effort:".data []))) }) }
    | none => st
  else if startsWithChars line "Priority:".data then
    match st.currentFeature with
    | some f =>
      { st with currentFeature := some ({ f with
          priority := some (String.mk (trimChars (replaceFirst line "Priority:".data []))) }) }
    | none => st
  else st

/-- The `topPriority`-section field handling (page.tsx lines 265-275). -/
def topPriorityStep (st : ParseState) (line : List Char) : ParseState :=
  if startsWithChars line "What to build first:".data then
    { st with topPriority := some ({
        what := String.mk (trimChars (replaceFirst line "What to build first:".data [])),
        why := "", impact := "", evidence := "" } : TopPriority) }
  else
    match st.topPriority with
    | some tp =>
      if startsWithChars line "Why:".data then
        { st with topPriority := some ({ tp with
            why := String.mk (trimChars (replaceFirst line "Why:".data [])) }) }
      else if startsWithChars line "Expected impact:".data then
        { st with topPriority := some ({ tp with
            impact := String.mk (trimChars (replaceFirst line "Expected impact:".data [])) }) }
      else if startsWithChars line "Customer evidence:".data then
        { st with topPriority := some ({ tp with
            evidence := String.mk (trimChars (replaceFirst line "Customer evidence:".data [])) }) }
      else st
    | none => st

/-- One iteration of the `for` loop of `parseAnalysisResults`: trim the raw
line, test the three section headers (each with `continue`), otherwise
dispatch on `currentSection`. -/
def processLine (st : ParseState) (rawLine : List Char) : ParseState :=
  let line := trimChars rawLine
  if containsSub line "PROBLEMS IDENTIFIED".data then
    { st with currentSection := some SectionTag.problems }
  else if containsSub line "RECOMMENDED FEATURES".data then
    { st with problems := finalizeProblems st, currentProblem := none,
              currentEvidence := [], currentSection := some SectionTag.features }
  else if containsSub line "TOP PRIORITY".data then
    { st with features := finalizeFeatures st, currentFeature := none,
              currentSection := some SectionTag.topPriority }
  else
    match st.currentSection with
    | some SectionTag.problems => problemsStep st line
    | some SectionTag.features => featuresStep st line
    | some SectionTag.topPriority => topPriorityStep st line
    | none => st

/-- The initial values of the scan's locals. -/
def initialParseState : ParseState :=
  { problems := [], features := [], topPriority := none, currentSection := none,
    currentProblem := none, currentFeature := none, currentEvidence := [] }

/-- Function `parseAnalysisResults` (page.tsx lines 195-287): split into lines, scan,
then finalize the still-open problem and feature. -/
def parseAnalysisResults (text : String) : ParseResult :=
  let st := (splitLines text.data).foldl processLine initialParseState
  { problems := finalizeProblems st, features := finalizeFeatures st,
    topPriority := st.topPriority }

/-! ## The POST handler (src/unnamed/part_000, lines 89-173) -/

/-- The fixed instruction template of the route (lines 8-54), with its single
placeholder written literally. -/
def ANALYSIS_PROMPT : String :=
  "You are an expert product researcher analyzing customer interviews.\n" ++
  "Analyze these customer interviews and identify clear patterns.\n" ++
  "\n" ++
  "INTERVIEWS:\n" ++
  "{interviews}\n" ++
  "\n" ++
  "IMPORTANT: You MUST provide analysis in the EXACT format below. Do not omit any sections.\n" ++
  "\n" ++
  "---\n" ++
  "\n" ++
  "PROBLEMS IDENTIFIED\n" ++
  "\n" ++
  "Problem: [Clear, concise statement of the problem]\n" ++
  "Mentioned in: [e.g., 2/3 interviews]\n" ++
  "Impact: High/Medium/Low\n" ++
  "Evidence:\n" ++
  "- \"[Direct quote from interview]\"\n" ++
  "- \"[Another direct quote]\"\n" ++
  "\n" ++
  "Problem: [Second problem if applicable]\n" ++
  "Mentioned in: [e.g., 1/3 interviews]\n" ++
  "Impact: High/Medium/Low\n" ++
  "Evidence:\n" ++
  "- \"[Direct quote from interview]\"\n" ++
  "\n" ++
  "RECOMMENDED FEATURES\n" ++
  "\n" ++
  "Feature: [What to build to solve this problem]\n" ++
  "Why: [How this feature solves the problem]\n" ++
  "Effort: Small/Medium/Large\n" ++
  "Priority: P0/P1/P2\n" ++
  "\n" ++
  "Feature: [Second feature]\n" ++
  "Why: [How this feature solves the problem]\n" ++
  "Effort: Small/Medium/Large\n" ++
  "Priority: P0/P1/P2\n" ++
  "\n" ++
  "TOP PRIORITY\n" ++
  "\n" ++
  "What to build first: [Single most important feature]\n" ++
  "Why: [Reasoning based on customer evidence]\n" ++
  "Expected impact: High/Medium/Low\n" ++
  "Customer evidence: \"[Key quote supporting this decision]\"\n" ++
  "\n" ++
  "---\n" ++
  "\n" ++
  "Remember: Include at least 2-3 problems and 2-3 recommended features. Use real quotes from the interviews as evidence."

/-- The part of `ANALYSIS_PROMPT` before the placeholder (used to state the
C8 substitution property). -/
def promptBefore : String :=
  "You are an expert product researcher analyzing customer interviews.\n" ++
  "Analyze these customer interviews and identify clear patterns.\n" ++
  "\n" ++
  "INTERVIEWS:\n" ++
  ""

/-- The part of `ANALYSIS_PROMPT` after the placeholder. -/
def promptAfter : String :=
  "\n" ++
  "\n" ++
  "IMPORTANT: You MUST provide analysis in the EXACT format below. Do not omit any sections.\n" ++
  "\n" ++
  "---\n" ++
  "\n" ++
  "PROBLEMS IDENTIFIED\n" ++
  "\n" ++
  "Problem: [Clear, concise statement of the problem]\n" ++
  "Mentioned in: [e.g., 2/3 interviews]\n" ++
  "Impact: High/Medium/Low\n" ++
  "Evidence:\n" ++
  "- \"[Direct quote from interview]\"\n" ++
  "- \"[Another direct quote]\"\n" ++
  "\n" ++
  "Problem: [Second problem if applicable]\n" ++
  "Mentioned in: [e.g., 1/3 interviews]\n" ++
  "Impact: High/Medium/Low\n" ++
  "Evidence:\n" ++
  "- \"[Direct quote from interview]\"\n" ++
  "\n" ++
  "RECOMMENDED FEATURES\n" ++
  "\n" ++
  "Feature: [What to build to solve this problem]\n" ++
  "Why: [How this feature solves the problem]\n" ++
  "Effort: Small/Medium/Large\n" ++
  "Priority: P0/P1/P2\n" ++
  "\n" ++
  "Feature: [Second feature]\n" ++
  "Why: [How this feature solves the problem]\n" ++
  "Effort: Small/Medium/Large\n" ++
  "Priority: P0/P1/P2\n" ++
  "\n" ++
  "TOP PRIORITY\n" ++
  "\n" ++
  "What to build first: [Single most important feature]\n" ++
  "Why: [Reasoning based on customer evidence]\n" ++
  "Expected impact: High/Medium/Low\n" ++
  "Customer evidence: \"[Key quote supporting this decision]\"\n" ++
  "\n" ++
  "---\n" ++
  "\n" ++
  "Remember: Include at least 2-3 problems and 2-3 recommended features. Use real quotes from the interviews as evidence."

/-- JS `Array.prototype.map` with the element index as second callback
argument, starting at `i`. -/
def mapWithIndex (f : Nat → α → β) : Nat → List α → List β
  | _, [] => []
  | i, a :: t => f i a :: mapWithIndex f (i + 1) t

/-- The filter of line 101: `interviews.filter(i => i && i.trim().length > 0)`
(for string entries: non-empty and non-whitespace). -/
def validFilter (l : List String) : List String :=
  l.filter fun i => !i.data.isEmpty && !(trimChars i.data).isEmpty

/-- Lines 111-113: `validInterviews.map((text, index) =>
interviewBlockHeader(index+1) newline text).join(blank line)`. -/
def interviewsTextOf (valid : List String) : String :=
  String.intercalate "\n\n"
    (mapWithIndex (fun index text => "--- Interview " ++ toString (index + 1) ++ " ---\n" ++ text)
      0 valid)

/-- Line 115: `ANALYSIS_PROMPT.replace(placeholder, interviewsText)`. -/
def buildPrompt (valid : List String) : String :=
  replaceFirstStr ANALYSIS_PROMPT "{interviews}" (interviewsTextOf valid)

/-- One content block of the model response (`message.content[k]`). -/
structure ContentBlock where
  type : String
  text : String
deriving Repr, DecidableEq

/-- The model response message, reduced to the part the handler reads. -/
structure AnthropicMessage where
  content : List ContentBlock
deriving Repr, DecidableEq

/-- Lines 132-137: `analysis` is the first content block text when the
content array is non-empty and its first block has type text, else the
empty string. -/
def extractAnalysisText (content : List ContentBlock) : String :=
  match content with
  | [] => ""
  | b :: _ => if b.type == "text" then b.text else ""

/-- The `interviews` value of the request body as the handler discriminates
it: absent/falsy, a truthy non-array, or an array of strings. -/
inductive InterviewsField where
  | absent
  | notArray
  | arr (l : List String)
deriving Repr, DecidableEq

/-- The `NextResponse.json` values the handler can produce: an error body
with an HTTP status, or the success body. -/
inductive PostResponse where
  | errorResp (status : Nat) (message : String)
  | successResp (analysis : String) (interviewCount : Nat)
deriving Repr, DecidableEq

/-- The catch block of `POST` (lines 149-171): API-key errors, overloaded
errors after retries, then the generic failure. `instanceof Error` with a
message is modelled as the message being present. -/
def errorResponse (e : JsError) : PostResponse :=
  if (match e.message with
      | some m => containsSub m.data "API key".data
      | none => false) then
    PostResponse.errorResp 500
      "API key not configured. Please add ANTHROPIC_API_KEY to your environment variables."
  else if e.status == some 529 || e.errorType == some "overloaded_error" then
    PostResponse.errorResp 503
      "The Anthropic API is currently overloaded. Please wait a moment and try again."
  else
    PostResponse.errorResp 500 "Failed to analyze interviews. Please try again."

/-- Handler `POST` (lines 89-173). The remote call is modelled by `op`, mapping the
assembled prompt and the attempt index to that attempt's outcome; the
handler invokes it through `retryWithBackoff(op, 3, 1500)` as at line 118-129. -/
def POST (interviews : InterviewsField) (op : String → Nat → Except JsError AnthropicMessage) :
    PostResponse :=
  match interviews with
  | InterviewsField.absent =>
    PostResponse.errorResp 400 "Please provide at least one interview transcript"
  | InterviewsField.notArray =>
    PostResponse.errorResp 400 "Please provide at least one interview transcript"
  | InterviewsField.arr l =>
    if l.length == 0 then
      PostResponse.errorResp 400 "Please provide at least one interview transcript"
    else
      let validInterviews := validFilter l
      if validInterviews.length == 0 then
        PostResponse.errorResp 400 "No valid interview transcripts provided"
      else
        let prompt := buildPrompt validInterviews
        match retryWithBackoff (op prompt) 3 1500 with
        | (RetryOutcome.ok message, _) =>
          PostResponse.successResp (extractAnalysisText message.content) validInterviews.length
        | (RetryOutcome.err e, _) => errorResponse e
        | (RetryOutcome.maxRetriesExceeded, _) =>
          errorResponse { status := none, errorType := none, message := some "Max retries exceeded" }

/-- The transcript serialization as the spec words it (section 4.2): blocks
headed by a 1-based interview index, each header followed by a newline and
the transcript text. -/
def specInterviewBlocks : List String → Nat → List String
  | [], _ => []
  | t :: ts, k => ("--- Interview " ++ toString k ++ " ---\n" ++ t) :: specInterviewBlocks ts (k + 1)

/-- The spec's wording of the joined serialization: blocks joined by one
blank line, indices starting at 1. -/
def specInterviewsSection (l : List String) : String :=
  String.intercalate "\n\n" (specInterviewBlocks l 1)

/-! ## Concrete inputs used by witnesses and counterexamples -/

/-- The worked example input of the spec (section 8) for claim C2. -/
def exampleInput : String :=
  "PROBLEMS IDENTIFIED\nProblem: Slow onboarding\nMentioned in: 2/3\nImpact: High\n" ++
  "Evidence:\n- \"Users get lost\"\n\nRECOMMENDED FEATURES\nFeature: Guided checklist\n" ++
  "Why: Reduces confusion\nEffort: Small\nPriority: P0\n\nTOP PRIORITY\n" ++
  "What to build first: Guided checklist\nWhy: Biggest complaint\nExpected impact: High\n" ++
  "Customer evidence: \"Users get lost\""

/-- An input whose features section opens a Feature record and is then
followed by a line containing the problems header (claim C6). -/
def featureThenProblemsInput : String :=
  "RECOMMENDED FEATURES\nFeature: X\nPROBLEMS IDENTIFIED"

/-- A generic non-retryable error value: plain HTTP 400 failure. -/
def plainError : JsError := { status := some 400, errorType := none, message := none }

/-- A retryable overloaded error value. -/
def overloadedError : JsError := { status := some 529, errorType := none, message := none }

/-- A retryable rate-limit error value. -/
def rateLimitError : JsError := { status := some 429, errorType := none, message := none }

/-- A model operation that always fails with a plain error, used to show
that rejected requests never depend on the remote call. -/
def opAlwaysFails : String → Nat → Except JsError AnthropicMessage :=
  fun _ _ => Except.error plainError

/-- A scan state in the features section with an open Feature record. -/
def featureOpenState : ParseState :=
  { initialParseState with
    currentFeature := some ({ feature := "X" } : DraftFeature),
    currentSection := some SectionTag.features }

/-! ## Theorems: the retry helper -/

/-- Behaviour of the attempt loop from index `a` when the `gap` attempts
`a, ..., a + gap - 1` fail with retryable errors and attempt `a + gap`
succeeds: the loop returns the success and sleeps `baseDelay * 2 ^ j` after
each failed attempt `j`, in order. -/
theorem retryLoop_ok_of_failures {α : Type} (fn : Nat → Except JsError α) (mr bd : Nat) (v : α)
    (gap : Nat) :
    ∀ a : Nat, a + gap < mr →
      (∀ j, a ≤ j → j < a + gap → ∃ e, fn j = Except.error e ∧ isRetryable e = true) →
      fn (a + gap) = Except.ok v →
      retryLoop fn mr bd a = (RetryOutcome.ok v, (List.range' a gap).map fun j => bd * 2 ^ j) := by
  induction gap with
  | zero =>
    intro a hlt _ hok
    rw [Nat.add_zero] at hok hlt
    unfold retryLoop
    rw [dif_pos hlt, hok]
    simp [List.range']
  | succ g ih =>
    intro a hlt hfail hok
    obtain ⟨e, he, hret⟩ := hfail a (Nat.le_refl a) (by omega)
    have hrec := ih (a + 1) (by omega)
      (fun j hj1 hj2 => hfail j (by omega) (by omega))
      (by rw [show a + 1 + g = a + (g + 1) by omega]; exact hok)
    unfold retryLoop
    rw [dif_pos (show a < mr by omega), he]
    dsimp only
    rw [if_pos ⟨hret, by omega⟩]
    simp only [hrec, List.range'_succ, List.map_cons]

/-- The attempt loop never produces the defensive outcome when started at an
index below the bound. -/
theorem retryLoop_ne_exceeded {α : Type} (fn : Nat → Except JsError α) (mr bd : Nat)
    (gap : Nat) :
    ∀ a : Nat, mr ≤ a + gap → a < mr →
      (retryLoop fn mr bd a).1 ≠ RetryOutcome.maxRetriesExceeded := by
  induction gap with
  | zero => intro a h1 h2; omega
  | succ g ih =>
    intro a h1 h2
    unfold retryLoop
    rw [dif_pos h2]
    cases hfa : fn a with
    | ok v => simp
    | error e =>
      dsimp only
      by_cases hc : isRetryable e = true ∧ a < mr - 1
      · rw [if_pos hc]
        have := ih (a + 1) (by omega) (by omega)
        simpa using this
      · rw [if_neg hc]
        simp

/-- The retry condition unfolded into the classification of the spec. -/
theorem isRetryable_iff (e : JsError) :
    isRetryable e = true ↔
      (e.status = some 529 ∨ e.errorType = some "overloaded_error" ∨
        (∃ m, e.message = some m ∧ containsSub m.data "overloaded".data = true) ∨
        e.status = some 429 ∨ e.errorType = some "rate_limit_error") := by
  obtain ⟨s, t, m⟩ := e
  cases m <;> simp [isRetryable, isOverloaded, isRateLimit] <;> tauto

/-- Claim C1: for every operation, every maxRetries >= 1 and every baseDelay,
if the operation fails with a retryable error on each of the first k attempts
(k < maxRetries) and succeeds on attempt k+1, then retryWithBackoff returns
that success value, having slept exactly baseDelay * 2 ^ j milliseconds after
the j-th failed attempt and before the next retry, for each j < k. -/
theorem retry_success_after_retryable_failures {α : Type} (fn : Nat → Except JsError α)
    (maxRetries baseDelay k : Nat) (v : α)
    (hmr : 1 ≤ maxRetries) (hk : k < maxRetries)
    (hfail : ∀ j, j < k → ∃ e, fn j = Except.error e ∧ isRetryable e = true)
    (hok : fn k = Except.ok v) :
    retryWithBackoff fn maxRetries baseDelay =
      (RetryOutcome.ok v, (List.range k).map fun j => baseDelay * 2 ^ j) := by
  have h := retryLoop_ok_of_failures fn maxRetries baseDelay v k 0 (by omega)
    (fun j _ hj2 => hfail j (by omega)) (by simpa using hok)
  rw [retryWithBackoff, h, List.range_eq_range']

/-- Witness for C1: two overloaded failures then success, maxRetries 3,
baseDelay 1000: the value 7 is returned after sleeps of 1000 and 2000 ms. -/
theorem retry_success_after_retryable_failures_witness :
    retryWithBackoff
        (fun j => if j < 2 then Except.error overloadedError else Except.ok 7) 3 1000 =
      (RetryOutcome.ok 7, [1000, 2000]) := by
  have h := retry_success_after_retryable_failures
    (fun j => if j < 2 then Except.error overloadedError else Except.ok (7 : Nat))
    3 1000 2 7 (by omega) (by omega)
    (fun j hj => ⟨overloadedError, by simp [hj], by decide⟩)
    rfl
  exact h.trans (by decide)

/-- Claim C3: a non-retryable error on the first attempt makes
retryWithBackoff fail immediately: no sleep, no further attempt (the result
is the same for every operation agreeing on attempt 0), and the original
error value is propagated unchanged. -/
theorem retry_nonretryable_fails_immediately {α : Type} (fn : Nat → Except JsError α)
    (maxRetries baseDelay : Nat) (e : JsError)
    (hmr : 1 ≤ maxRetries) (h0 : fn 0 = Except.error e) (hnr : isRetryable e = false) :
    retryWithBackoff fn maxRetries baseDelay = (RetryOutcome.err e, []) := by
  rw [retryWithBackoff]
  unfold retryLoop
  rw [dif_pos (show 0 < maxRetries by omega), h0]
  dsimp only
  rw [if_neg (by simp [hnr])]

/-- Witness for C3: a plain 400 error with maxRetries 3 is rethrown at once
with an empty sleep list. -/
theorem retry_nonretryable_fails_immediately_witness :
    retryWithBackoff (fun _ => Except.error plainError : Nat → Except JsError Nat) 3 1000 =
      (RetryOutcome.err plainError, ([] : List Nat)) :=
  retry_nonretryable_fails_immediately (fun _ => Except.error plainError) 3 1000 plainError
    (by omega) rfl (by decide)

/-- Claim C5: with at least two attempts available and the first attempt
failing with error e, retryWithBackoff retries (performs at least one sleep)
precisely when e is overloaded (status 529, type tag overloaded_error, or a
message containing the substring overloaded) or rate limited (status 429 or
type tag rate_limit_error); every other error triggers no retry. -/
theorem retry_classification_iff {α : Type} (fn : Nat → Except JsError α)
    (maxRetries baseDelay : Nat) (e : JsError)
    (hmr : 2 ≤ maxRetries) (h0 : fn 0 = Except.error e) :
    (retryWithBackoff fn maxRetries baseDelay).2 ≠ [] ↔
      (e.status = some 529 ∨ e.errorType = some "overloaded_error" ∨
        (∃ m, e.message = some m ∧ containsSub m.data "overloaded".data = true) ∨
        e.status = some 429 ∨ e.errorType = some "rate_limit_error") := by
  rw [← isRetryable_iff, retryWithBackoff]
  unfold retryLoop
  rw [dif_pos (show 0 < maxRetries by omega), h0]
  dsimp only
  by_cases hr : isRetryable e = true
  · rw [if_pos ⟨hr, by omega⟩]
    simp [hr]
  · rw [if_neg (fun h => hr h.1)]
    simp [hr]

/-- Witness for C5: a rate-limited 429 error does cause a sleep, obtained
through the classification iff. -/
theorem retry_classification_iff_witness :
    (retryWithBackoff (fun _ => Except.error rateLimitError : Nat → Except JsError Nat)
        3 1500).2 ≠ [] := by
  have h := retry_classification_iff
    (fun _ => Except.error rateLimitError : Nat → Except JsError Nat)
    3 1500 rateLimitError (by omega) rfl
  exact h.mpr (Or.inr (Or.inr (Or.inr (Or.inl rfl))))

/-- Claim C9: for maxRetries >= 1 the loop always returns a success or
throws before falling through, so the result is never the defensive
max-retries-exceeded outcome; and the post-loop branch (the loop exiting
with the attempt index at the bound) fails with that distinct error rather
than returning a value. -/
theorem retry_never_undefined {α : Type} (fn : Nat → Except JsError α)
    (maxRetries baseDelay : Nat) (hmr : 1 ≤ maxRetries) :
    (retryWithBackoff fn maxRetries baseDelay).1 ≠ RetryOutcome.maxRetriesExceeded ∧
      retryLoop fn maxRetries baseDelay maxRetries =
        (RetryOutcome.maxRetriesExceeded, []) := by
  constructor
  · exact retryLoop_ne_exceeded fn maxRetries baseDelay maxRetries 0
      (by omega) (by omega)
  · unfold retryLoop
    rw [dif_neg (by omega)]

/-- Witness for C9 at a concrete always-failing operation with maxRetries 1. -/
theorem retry_never_undefined_witness :
    (retryWithBackoff (fun _ => Except.error plainError : Nat → Except JsError Nat) 1 1000).1 ≠
        RetryOutcome.maxRetriesExceeded ∧
      retryLoop (fun _ => Except.error plainError : Nat → Except JsError Nat) 1 1000 1 =
        (RetryOutcome.maxRetriesExceeded, []) :=
  retry_never_undefined (fun _ => Except.error plainError) 1 1000 (by omega)

/-! ## Theorems: the parser -/

/-- Claim C2: the spec's worked example input parses to exactly one Problem
titled Slow onboarding with the single quoted evidence string, one Feature
Guided checklist with priority P0, and a TopPriority whose what field is
Guided checklist. -/
theorem parse_example_exact :
    parseAnalysisResults exampleInput =
      { problems := [{ title := "Slow onboarding", mentionedIn := some "2/3",
                       impact := some "High", evidence := ["\"Users get lost\""] }],
        features := [{ feature := "Guided checklist", why := some "Reduces confusion",
                       effort := some "Small", priority := some "P0" }],
        topPriority := some ({ what := "Guided checklist", why := "Biggest complaint",
                               impact := "High", evidence := "\"Users get lost\"" } : TopPriority) } := by
  rfl

/-- Counterexample to claim C6 as stated: a Feature record opened before a
line containing the problems header is still emitted into the final result
(the header line discards nothing), so the prior section state is not
discarded. -/
theorem problems_header_discards_counterexample :
    parseAnalysisResults featureThenProblemsInput =
      { problems := [],
        features := [{ feature := "X", why := none, effort := none, priority := none }],
        topPriority := none } := by
  rfl

/-- Claim C6 amended: a line containing the problems header only sets the
current section tag to problems; every other component of the scan state
(in-progress problem, in-progress feature, accumulated evidence, emitted
records) is kept unchanged, so records opened before that line can still be
finalized later from that retained state. -/
theorem problems_header_only_sets_section (st : ParseState) (rawLine : List Char)
    (h : containsSub (trimChars rawLine) "PROBLEMS IDENTIFIED".data = true) :
    processLine st rawLine = { st with currentSection := some SectionTag.problems } := by
  unfold processLine
  dsimp only
  rw [if_pos h]

/-- Witness for the amended C6: an open Feature survives the header line. -/
theorem problems_header_only_sets_section_witness :
    processLine featureOpenState ("PROBLEMS IDENTIFIED".data) =
      { featureOpenState with currentSection := some SectionTag.problems } :=
  problems_header_only_sets_section featureOpenState ("PROBLEMS IDENTIFIED".data) (by decide)

/-- The problems-section step never changes the section tag or the
top-priority slot. -/
theorem problemsStep_preserves (st : ParseState) (line : List Char) :
    (problemsStep st line).currentSection = st.currentSection ∧
    (problemsStep st line).topPriority = st.topPriority := by
  unfold problemsStep
  repeat' split
  all_goals exact ⟨rfl, rfl⟩

/-- The features-section step never changes the section tag or the
top-priority slot. -/
theorem featuresStep_preserves (st : ParseState) (line : List Char) :
    (featuresStep st line).currentSection = st.currentSection ∧
    (featuresStep st line).topPriority = st.topPriority := by
  unfold featuresStep
  repeat' split
  all_goals exact ⟨rfl, rfl⟩

/-- A line not containing the top-priority header keeps the scan out of the
top-priority section and keeps the top-priority slot empty. -/
theorem processLine_no_top (st : ParseState) (rawLine : List Char)
    (hs : st.currentSection ≠ some SectionTag.topPriority)
    (ht : st.topPriority = none)
    (hl : containsSub (trimChars rawLine) "TOP PRIORITY".data = false) :
    (processLine st rawLine).currentSection ≠ some SectionTag.topPriority ∧
    (processLine st rawLine).topPriority = none := by
  unfold processLine
  dsimp only
  by_cases h1 : containsSub (trimChars rawLine) "PROBLEMS IDENTIFIED".data = true
  · rw [if_pos h1]
    exact ⟨fun hcontra => SectionTag.noConfusion (Option.some.inj hcontra), ht⟩
  · rw [if_neg h1]
    by_cases h2 : containsSub (trimChars rawLine) "RECOMMENDED FEATURES".data = true
    · rw [if_pos h2]
      exact ⟨fun hcontra => SectionTag.noConfusion (Option.some.inj hcontra), ht⟩
    · rw [if_neg h2, if_neg (by simp [hl])]
      cases hsec : st.currentSection with
      | none => exact ⟨hs, ht⟩
      | some s =>
        cases s with
        | problems =>
          obtain ⟨e1, e2⟩ := problemsStep_preserves st (trimChars rawLine)
          rw [e1, e2]
          exact ⟨hs, ht⟩
        | features =>
          obtain ⟨e1, e2⟩ := featuresStep_preserves st (trimChars rawLine)
          rw [e1, e2]
          exact ⟨hs, ht⟩
        | topPriority => exact absurd hsec hs

/-- Folding the scan over lines none of which contains the top-priority
header preserves the invariant of `processLine_no_top`. -/
theorem foldl_processLine_no_top (lines : List (List Char)) :
    ∀ st : ParseState, st.currentSection ≠ some SectionTag.topPriority →
      st.topPriority = none →
      (∀ l ∈ lines, containsSub (trimChars l) "TOP PRIORITY".data = false) →
      (lines.foldl processLine st).currentSection ≠ some SectionTag.topPriority ∧
      (lines.foldl processLine st).topPriority = none := by
  induction lines with
  | nil => intro st hs ht _; exact ⟨hs, ht⟩
  | cons l ls ih =>
    intro st hs ht hall
    have h1 := processLine_no_top st l hs ht (hall l (by simp))
    simpa using ih (processLine st l) h1.1 h1.2 (fun x hx => hall x (by simp [hx]))

/-- Claim C7: the parser is a total function, and on any input none of whose
lines contains the top-priority header the returned topPriority is none
(problems and features are still whatever the scan collected). -/
theorem parser_total_topPriority_none (text : String)
    (h : ∀ l ∈ splitLines text.data, containsSub (trimChars l) "TOP PRIORITY".data = false) :
    (parseAnalysisResults text).topPriority = none := by
  have hfold := foldl_processLine_no_top (splitLines text.data) initialParseState
    (by decide) rfl h
  simpa [parseAnalysisResults] using hfold.2

/-- Witness for C7: an input with problems but no TOP PRIORITY line. -/
theorem parser_total_topPriority_none_witness :
    (parseAnalysisResults "PROBLEMS IDENTIFIED\nProblem: X").topPriority = none :=
  parser_total_topPriority_none "PROBLEMS IDENTIFIED\nProblem: X" (by decide)

/-! ## Theorems: the POST handler -/

/-- Claim C4: the handler answers 400 with the transcript-list message when
the interviews value is absent, not an array, or the empty array; it answers
400 with the distinct no-valid-content message when the list is non-empty
but every entry trims to nothing; in all these cases the response does not
depend on the remote operation (it is the same for every `op`). -/
theorem post_validation_rejections (op : String → Nat → Except JsError AnthropicMessage) :
    POST InterviewsField.absent op =
        PostResponse.errorResp 400 "Please provide at least one interview transcript" ∧
    POST InterviewsField.notArray op =
        PostResponse.errorResp 400 "Please provide at least one interview transcript" ∧
    POST (InterviewsField.arr []) op =
        PostResponse.errorResp 400 "Please provide at least one interview transcript" ∧
    "Please provide at least one interview transcript" ≠
        "No valid interview transcripts provided" ∧
    ∀ l : List String, l ≠ [] → (∀ i ∈ l, trimChars i.data = []) →
      POST (InterviewsField.arr l) op =
        PostResponse.errorResp 400 "No valid interview transcripts provided" := by
  refine ⟨rfl, rfl, rfl, by decide, ?_⟩
  intro l hne hall
  have hv : validFilter l = [] := by
    unfold validFilter
    rw [List.filter_eq_nil_iff]
    intro i hi
    simp [hall i hi]
  unfold POST
  dsimp only
  have hl : (l.length == 0) = false := by
    cases l with
    | nil => exact absurd rfl hne
    | cons a t => rfl
  rw [hl, hv]
  rfl

/-- Witness for C4 at the always-failing remote operation. -/
theorem post_validation_rejections_witness :
    POST InterviewsField.absent opAlwaysFails =
        PostResponse.errorResp 400 "Please provide at least one interview transcript" ∧
    POST (InterviewsField.arr ["", "   "]) opAlwaysFails =
        PostResponse.errorResp 400 "No valid interview transcripts provided" :=
  ⟨(post_validation_rejections opAlwaysFails).1,
   (post_validation_rejections opAlwaysFails).2.2.2.2 ["", "   "] (by decide) (by decide)⟩

set_option maxRecDepth 10000 in
/-- Substituting a string for the placeholder of the template yields the text
before the placeholder, the dollar substitution of the string (relative to
that decomposition), then the text after it. -/
theorem replace_placeholder_splits (x : String) :
    replaceFirstStr ANALYSIS_PROMPT "{interviews}" x =
      promptBefore ++
        String.mk (getSubstitution "{interviews}".data promptBefore.data promptAfter.data
          x.data) ++ promptAfter := by
  rfl

/-- On a replacement free of the four dollar patterns, the dollar
substitution is the identity. -/
theorem getSubstitution_eq_self (matched before after : List Char) :
    ∀ repl : List Char, hasDollarPattern repl = false →
      getSubstitution matched before after repl = repl
  | [], _ => rfl
  | [c], _ => by
    by_cases hc : c = '$'
    · subst hc
      rfl
    · simp [getSubstitution, hc]
  | c :: d :: t2, h => by
    have ih := getSubstitution_eq_self matched before after (d :: t2)
    simp only [hasDollarPattern, Bool.or_eq_false_iff, Bool.and_eq_false_iff] at h
    by_cases hc : c = '$'
    · subst hc
      have hd : (((d == '$') = false ∧ (d == '&') = false) ∧
          (d == Char.ofNat 96) = false) ∧ (d == Char.ofNat 39) = false := by
        rcases h.1 with h1 | h1
        · simp at h1
        · exact h1
      obtain ⟨⟨⟨hd1, hd2⟩, hd3⟩, hd4⟩ := hd
      unfold getSubstitution
      rw [if_pos (show (('$' : Char) == '$') = true from rfl)]
      dsimp only
      rw [if_neg (by simp [hd1]), if_neg (by simp [hd2]),
          if_neg (by simp [hd3]), if_neg (by simp [hd4])]
      exact congrArg (List.cons _) (ih h.2)
    · unfold getSubstitution
      rw [if_neg (by simp [hc])]
      exact congrArg (List.cons c) (ih h.2)

/-- The code's 0-based `map((text, index) => ...)` serialization equals the
spec's 1-based block list. -/
theorem mapWithIndex_spec_blocks (l : List String) :
    ∀ n : Nat,
      mapWithIndex (fun index text => "--- Interview " ++ toString (index + 1) ++ " ---\n" ++ text)
          n l =
        specInterviewBlocks l (n + 1) := by
  induction l with
  | nil => intro n; rfl
  | cons t ts ih =>
    intro n
    simp [mapWithIndex, specInterviewBlocks, ih]

set_option maxRecDepth 10000 in
/-- Counterexample to claim C8 as stated: for the transcript list with the
single entry dollar-ampersand, JS replace rewrites the dollar pattern to the
matched placeholder text, so the assembled prompt is not the verbatim
serialization substituted into the template. -/
theorem prompt_assembly_dollar_counterexample :
    buildPrompt ["$&"] ≠ promptBefore ++ specInterviewsSection ["$&"] ++ promptAfter := by
  intro hcontra
  have h1 : buildPrompt ["$&"] =
      promptBefore ++ "--- Interview 1 ---\n{interviews}" ++ promptAfter := by rfl
  have h2 : specInterviewsSection ["$&"] = "--- Interview 1 ---\n$&" := by rfl
  rw [h1, h2] at hcontra
  have hlen := congrArg String.length hcontra
  simp only [String.length_append] at hlen
  have hA : ("--- Interview 1 ---\n{interviews}" : String).length = 32 := by decide
  have hB : ("--- Interview 1 ---\n$&" : String).length = 22 := by decide
  rw [hA, hB] at hlen
  omega

set_option maxRecDepth 10000 in
/-- Claim C8 amended: for transcripts whose serialized interview text is free
of the JS dollar substitution patterns, prompt assembly serializes the
transcripts exactly as the spec words it (1-based numbered blocks joined by
one blank line) and substitutes the result verbatim into the template's
single placeholder position: the template is the prefix, placeholder, suffix
decomposition and neither prefix nor suffix contains the placeholder (a
serialization containing a dollar pattern is first rewritten by the JS
dollar substitution rules). Determinism holds because `buildPrompt` is a
pure function of the ordered list. -/
theorem prompt_assembly_matches_spec (valid : List String)
    (hdollar : hasDollarPattern (interviewsTextOf valid).data = false) :
    buildPrompt valid = promptBefore ++ specInterviewsSection valid ++ promptAfter ∧
    ANALYSIS_PROMPT = promptBefore ++ "{interviews}" ++ promptAfter ∧
    containsSub promptBefore.data "{interviews}".data = false ∧
    containsSub promptAfter.data "{interviews}".data = false := by
  refine ⟨?_, by rfl, by rfl, by rfl⟩
  calc buildPrompt valid
      = replaceFirstStr ANALYSIS_PROMPT "{interviews}" (interviewsTextOf valid) := rfl
    _ = promptBefore ++
          String.mk (getSubstitution "{interviews}".data promptBefore.data promptAfter.data
            (interviewsTextOf valid).data) ++ promptAfter :=
        replace_placeholder_splits (interviewsTextOf valid)
    _ = promptBefore ++ interviewsTextOf valid ++ promptAfter := by
        rw [getSubstitution_eq_self _ _ _ _ hdollar]
    _ = promptBefore ++ specInterviewsSection valid ++ promptAfter := by
        rw [interviewsTextOf, specInterviewsSection, mapWithIndex_spec_blocks]

set_option maxRecDepth 10000 in
/-- Witness for the amended C8 at the dollar-free transcript list with the
single entry hello. -/
theorem prompt_assembly_matches_spec_witness :
    buildPrompt ["hello"] = promptBefore ++ specInterviewsSection ["hello"] ++ promptAfter ∧
    ANALYSIS_PROMPT = promptBefore ++ "{interviews}" ++ promptAfter ∧
    containsSub promptBefore.data "{interviews}".data = false ∧
    containsSub promptAfter.data "{interviews}".data = false :=
  prompt_assembly_matches_spec ["hello"] (by decide)

/-- Claim C10: when validation passes and the remote call succeeds with a
message whose content is empty or whose first block is not a text block, the
handler still responds successfully, with an empty analysis string and the
count of non-whitespace transcripts. -/
theorem post_textless_success (l : List String)
    (op : String → Nat → Except JsError AnthropicMessage) (msg : AnthropicMessage)
    (hvalid : validFilter l ≠ [])
    (hop : ∀ p j, op p j = Except.ok msg)
    (hcontent : msg.content = [] ∨ ∃ b rest, msg.content = b :: rest ∧ b.type ≠ "text") :
    POST (InterviewsField.arr l) op = PostResponse.successResp "" (validFilter l).length := by
  have hlne : l ≠ [] := by
    intro hnil
    rw [hnil] at hvalid
    exact hvalid rfl
  have hl : (l.length == 0) = false := by
    cases l with
    | nil => exact absurd rfl hlne
    | cons a t => rfl
  have hvl : ((validFilter l).length == 0) = false := by
    cases hcase : validFilter l with
    | nil => exact absurd hcase hvalid
    | cons a t => rfl
  have hretry :
      retryWithBackoff (op (buildPrompt (validFilter l))) 3 1500 = (RetryOutcome.ok msg, []) := by
    rw [retryWithBackoff]
    unfold retryLoop
    rw [dif_pos (show 0 < 3 by omega), hop]
  have hext : extractAnalysisText msg.content = "" := by
    rcases hcontent with hnil | ⟨b, rest, hb, hbt⟩
    · rw [hnil]
      rfl
    · rw [hb]
      unfold extractAnalysisText
      simp [hbt]
  unfold POST
  dsimp only
  rw [if_neg (show ¬((l.length == 0) = true) by simp [hl])]
  rw [if_neg (show ¬(((validFilter l).length == 0) = true) by simp [hvl])]
  rw [hretry]
  dsimp only
  rw [hext]

/-- Witness for C10: one non-empty transcript and a response with an empty
content array produce success with an empty analysis and count 1. -/
theorem post_textless_success_witness :
    POST (InterviewsField.arr ["hello"])
        (fun _ _ => Except.ok ({ content := [] } : AnthropicMessage)) =
      PostResponse.successResp "" 1 := by
  have h := post_textless_success ["hello"]
    (fun _ _ => Except.ok ({ content := [] } : AnthropicMessage))
    ({ content := [] } : AnthropicMessage)
    (by decide) (fun p j => rfl) (Or.inl rfl)
  exact h.trans (by decide)

end ProdSignal
